import Mathlib

/-!
Shallow embedding of the redisvl repository: the schema model
(redisvl/schema.py), the semantic cache (redisvl/llmcache/semantic.py) and
the two session managers (redisvl/extensions/session_manager/session.py and
standard_session.py).  Pydantic construction-time validation is embedded as
explicit constructor functions returning `Except String`; python exceptions
become the `.error` branch, python float arithmetic is embedded over `Rat`
(exact for the comparisons at stake), and python truthiness of optional
strings and lists is embedded explicitly.
-/

/-- The list REDIS_DISTANCE_METRICS from redisvl/schema.py. -/
def REDIS_DISTANCE_METRICS : List String := ["COSINE", "IP", "L2"]

/-- The key set of REDIS_VECTOR_DTYPE_MAP from redisvl/schema.py (the map
sends each name to a numpy dtype; only the key set matters for validation). -/
def REDIS_VECTOR_DTYPE_MAP : List String := ["FLOAT32", "FLOAT64"]

/-- A constructed FlatVectorField from redisvl/schema.py (fields of
BaseVectorField plus the FLAT-specific block_size). -/
structure FlatVectorField where
  name : String
  dims : Int
  algorithm : String
  datatype : String
  distance_metric : String
  initial_cap : Option Int
  block_size : Option Int
deriving DecidableEq

/-- A constructed HNSWVectorField from redisvl/schema.py (fields of
BaseVectorField plus the HNSW-specific parameters). -/
structure HNSWVectorField where
  name : String
  dims : Int
  algorithm : String
  datatype : String
  distance_metric : String
  initial_cap : Option Int
  m : Int
  ef_construction : Int
  ef_runtime : Int
  epsilon : Rat
deriving DecidableEq

/-- The python str.upper call the uppercase_strings validator performs,
embedded as a character-wise map over the string (exact for the ASCII
enumeration names at stake). -/
def pyUpper (s : String) : String := ⟨s.data.map Char.toUpper⟩

/-- Pydantic construction of FlatVectorField: the pre-validator
uppercase_strings uppercases algorithm, datatype and distance_metric; the
Literal annotation on algorithm accepts only FLAT; the validator
uppercase_and_check_dtype rejects a datatype outside REDIS_VECTOR_DTYPE_MAP.
No validator constrains dims, and none checks distance_metric against
REDIS_DISTANCE_METRICS. -/
def mkFlatVectorField (name : String) (dims : Int)
    (algorithm datatype distance_metric : String)
    (initial_cap block_size : Option Int) : Except String FlatVectorField :=
  let alg := pyUpper algorithm
  let dt := pyUpper datatype
  let dm := pyUpper distance_metric
  if alg ≠ "FLAT" then
    .error "unexpected value; permitted: FLAT"
  else if dt ∉ REDIS_VECTOR_DTYPE_MAP then
    .error "datatype must be one of the REDIS_VECTOR_DTYPE_MAP keys"
  else
    .ok { name := name, dims := dims, algorithm := alg, datatype := dt,
          distance_metric := dm, initial_cap := initial_cap,
          block_size := block_size }

/-- Pydantic construction of HNSWVectorField: same validators as
mkFlatVectorField but the Literal annotation on algorithm accepts only
HNSW. -/
def mkHNSWVectorField (name : String) (dims : Int)
    (algorithm datatype distance_metric : String)
    (initial_cap : Option Int) (m ef_construction ef_runtime : Int)
    (epsilon : Rat) : Except String HNSWVectorField :=
  let alg := pyUpper algorithm
  let dt := pyUpper datatype
  let dm := pyUpper distance_metric
  if alg ≠ "HNSW" then
    .error "unexpected value; permitted: HNSW"
  else if dt ∉ REDIS_VECTOR_DTYPE_MAP then
    .error "datatype must be one of the REDIS_VECTOR_DTYPE_MAP keys"
  else
    .ok { name := name, dims := dims, algorithm := alg, datatype := dt,
          distance_metric := dm, initial_cap := initial_cap, m := m,
          ef_construction := ef_construction, ef_runtime := ef_runtime,
          epsilon := epsilon }

/-- IndexModel from redisvl/schema.py with use_enum_values: storage_type is
stored as its string value.  The source calls the key-prefix field by the
bare word that Lean reserves as a keyword, so it is named key_prefix here,
following the naming the spec uses for it. -/
structure IndexModel where
  name : String
  key_prefix : String
  key_separator : String
  storage_type : String
deriving DecidableEq

/-- An optional constructor argument of a pydantic model: either omitted
(the field default applies), explicitly None, or an explicit string. -/
inductive PyArg where
  | omitted : PyArg
  | pyNone : PyArg
  | str (s : String) : PyArg
deriving DecidableEq

/-- Pydantic construction of IndexModel: the name validator rejects a falsy
(empty) name; the always-on pre-validators replace a None prefix by the
empty string and a None key_separator by a colon; the field defaults are the
string rvl for prefix, a colon for key_separator and hash for
storage_type. -/
def mkIndexModel (name : String) (prefixArg keySeparatorArg : PyArg)
    (storageTypeArg : Option String) : Except String IndexModel :=
  let p := match prefixArg with
    | .omitted => "rvl"
    | .pyNone => ""
    | .str s => s
  let sep := match keySeparatorArg with
    | .omitted => ":"
    | .pyNone => ":"
    | .str s => s
  if name = "" then
    .error "name must not be empty"
  else
    .ok { name := name, key_prefix := p, key_separator := sep,
          storage_type := storageTypeArg.getD "hash" }

/-- TagFieldSchema from redisvl/schema.py. -/
structure TagFieldSchema where
  name : String
  sortable : Bool
  as_name : Option String
  separator : String
  case_sensitive : Bool
deriving DecidableEq

/-- TextFieldSchema from redisvl/schema.py. -/
structure TextFieldSchema where
  name : String
  sortable : Bool
  as_name : Option String
  weight : Rat
  no_stem : Bool
  phonetic_matcher : Option String
  withsuffixtrie : Bool
deriving DecidableEq

/-- NumericFieldSchema from redisvl/schema.py. -/
structure NumericFieldSchema where
  name : String
  sortable : Bool
  as_name : Option String
deriving DecidableEq

/-- GeoFieldSchema from redisvl/schema.py. -/
structure GeoFieldSchema where
  name : String
  sortable : Bool
  as_name : Option String
deriving DecidableEq

/-- The Union of FlatVectorField and HNSWVectorField used by
FieldsModel.vector. -/
inductive VectorFieldSchema where
  | flat (f : FlatVectorField) : VectorFieldSchema
  | hnsw (h : HNSWVectorField) : VectorFieldSchema
deriving DecidableEq

/-- FieldsModel from redisvl/schema.py: five optional collections of field
schemas, each defaulting to None. -/
structure FieldsModel where
  tag : Option (List TagFieldSchema)
  text : Option (List TextFieldSchema)
  numeric : Option (List NumericFieldSchema)
  geo : Option (List GeoFieldSchema)
  vector : Option (List VectorFieldSchema)
deriving DecidableEq

/-- The is_empty property of FieldsModel: true when every collection among
tag, text, numeric and vector is None (the source iterates exactly that
four-element list; geo is not consulted). -/
def FieldsModel.is_empty (f : FieldsModel) : Bool :=
  f.tag.isNone && f.text.isNone && f.numeric.isNone && f.vector.isNone

/-- Modelled from the spec: the key derivation of the Index component
(SearchIndex.key in redisvl/index.py) is not present under src, only its
unit tests are.  Per the spec, the storage key for an id is the key prefix,
the key separator and the id concatenated when the prefix is non-empty, and
the id unchanged when the prefix is the empty string. -/
def key_for (pre sep id : String) : String :=
  if pre = "" then id else pre ++ sep ++ id

/-- The module-level similarity function of redisvl/llmcache/semantic.py:
one minus the reported vector distance. -/
def similarity (distance : Rat) : Rat := 1 - distance

/-- The client-side state of a SemanticCache that its methods read: the
stored similarity threshold and the optional TTL. -/
structure SemanticCacheState where
  threshold : Rat
  ttl : Option Int
deriving DecidableEq

/-- SemanticCache.set_threshold: raises when the float value is not between
0 and 1, leaving the object unchanged, and otherwise stores the float
value.  Embedded as a state transformer returning the new state and a
possible error message; on error the state returned is the old one, since
the python assignment is never reached. -/
def SemanticCache.set_threshold (st : SemanticCacheState) (t : Rat) :
    SemanticCacheState × Option String :=
  if 0 ≤ t ∧ t ≤ 1 then ({ st with threshold := t }, none)
  else (st, some "Threshold must be between 0 and 1.")

/-- One row of an engine search result as SemanticCache.check reads it: the
record key, the reported vector distance and the stored response. -/
structure CacheDoc where
  id : String
  vector_distance : Rat
  response : String
deriving DecidableEq

/-- One engine exchange issued by a SemanticCache method, recorded in order:
an embedding call on the vectorizer, a search on the index, or a TTL
refresh (expire) on a key. -/
inductive EngineCmd where
  | embed (prompt : String) : EngineCmd
  | search (vector : List Rat) : EngineCmd
  | expire (key : String) (ttl : Int) : EngineCmd
deriving DecidableEq

/-- Python truthiness of an optional string argument: None and the empty
string are falsy. -/
def pyTruthyStr : Option String → Bool
  | none => false
  | some s => s ≠ ""

/-- Python truthiness of an optional vector argument: None and the empty
list are falsy. -/
def pyTruthyVec : Option (List Rat) → Bool
  | none => false
  | some v => v ≠ []

/-- SemanticCache.check: raises when neither prompt nor vector is truthy,
before any engine exchange; otherwise embeds the prompt when the vector is
not supplied, searches the index, and collects the response of every
returned row whose similarity (one minus its vector distance) is strictly
greater than the stored threshold, refreshing the TTL of each such row when
a non-zero TTL is set.  The embedding and search behaviour of the engine
are passed in as functions; the returned list records every engine command
issued, in order. -/
def SemanticCache.check (st : SemanticCacheState)
    (embedFn : String → List Rat) (searchFn : List Rat → List CacheDoc)
    (prompt : Option String) (vector : Option (List Rat)) :
    Except String (List String) × List EngineCmd :=
  if !pyTruthyStr prompt && !pyTruthyVec vector then
    (.error "Either prompt or vector must be specified.", [])
  else
    let vecTrace : List Rat × List EngineCmd :=
      if !pyTruthyVec vector then
        (embedFn (prompt.getD ""), [EngineCmd.embed (prompt.getD "")])
      else (vector.getD [], [])
    let docs := searchFn vecTrace.1
    let hitDocs := docs.filter fun d => similarity d.vector_distance > st.threshold
    let ttlCmds := match st.ttl with
      | some t => if t ≠ 0 then hitDocs.map fun d => EngineCmd.expire d.id t else []
      | none => []
    (.ok (hitDocs.map fun d => d.response),
     vecTrace.2 ++ [EngineCmd.search vecTrace.1] ++ ttlCmds)

/-- A value stored under one field of the payload dict SemanticCache.store
builds: a string, or the vector buffer array_to_buffer produces. -/
inductive PyValue where
  | str (s : String) : PyValue
  | buf (v : List Rat) : PyValue
deriving DecidableEq

/-- The python dict literal SemanticCache.store builds before the metadata
update: the hashed id, the prompt vector buffer, the prompt and the
response, embedded as a function from field name to optional value. -/
def payloadDict (key : String) (vec : List Rat)
    (prompt response : String) : String → Option PyValue := fun k =>
  if k = "id" then some (.str key)
  else if k = "prompt_vector" then some (.buf vec)
  else if k = "prompt" then some (.str prompt)
  else if k = "response" then some (.str response)
  else none

/-- The payload.update(metadata) call of SemanticCache.store: every key the
metadata dict holds takes the metadata value, the reserved payload fields
id, prompt_vector, prompt and response included; every other key keeps its
payload value.  Metadata is a dict with string values, given as an
association list with unique keys.  The source guards the call with a
truthiness check on metadata, which is transparent here: updating with an
empty dict changes no key. -/
def dictUpdate (d : String → Option PyValue)
    (m : List (String × String)) : String → Option PyValue := fun k =>
  match m.lookup k with
  | some v => some (.str v)
  | none => d k

/-- The string value of a payload field: the non-string branch returns the
empty string and never arises for a field every write to which is a
string. -/
def payloadStr (p : String → Option PyValue) (k : String) : String :=
  match p k with
  | some (.str s) => s
  | _ => ""

/-- Modelled from the spec: SemanticCache.store hashes the prompt with
BaseLLMCache.hash_input (redisvl/llmcache/base.py, not present under src;
the session manager in src implements the same-named method as a SHA-256
hex digest of the input string), embedded here as an arbitrary function of
the prompt string alone; builds the payload dict, merges the metadata dict
into it last via payload.update(metadata), and writes through
SearchIndex.load with key_field id (redisvl/index.py, not present under
src), which per the spec derives the storage key from the record's id
field, after the merge, via key_for and overwrites that key.  The cache
contents are embedded as a map from storage key to payload dict; the
result is the new contents together with the storage key written. -/
def SemanticCache.store (hashInput : String → String)
    (embedFn : String → List Rat) (pre sep : String)
    (db : String → Option (String → Option PyValue))
    (prompt response : String) (vector : Option (List Rat))
    (metadata : List (String × String)) :
    (String → Option (String → Option PyValue)) × String :=
  let key := hashInput prompt
  let vec := if !pyTruthyVec vector then embedFn prompt else vector.getD []
  let payload := dictUpdate (payloadDict key vec prompt response) metadata
  let storageKey := key_for pre sep (payloadStr payload "id")
  (fun k => if k = storageKey then some payload else db k, storageKey)

/-- One exchange as both session managers format it: a prompt, a response
and the integer timestamp recorded when it was stored. -/
structure ChatExchange where
  prompt : String
  response : String
  timestamp : Int
deriving DecidableEq

/-- One formatted statement: a role marker and its content, as built by the
format_context methods when as_text is false. -/
structure ChatMessage where
  role : String
  content : String
deriving DecidableEq

/-- The comparison the vector-backed SessionManager sorts with: ascending
timestamp. -/
def tsLE (a b : ChatExchange) : Prop := a.timestamp ≤ b.timestamp

instance : DecidableRel tsLE := fun a b =>
  inferInstanceAs (Decidable (a.timestamp ≤ b.timestamp))

instance : IsTotal ChatExchange tsLE :=
  ⟨fun a b => Int.le_total a.timestamp b.timestamp⟩

instance : IsTrans ChatExchange tsLE :=
  ⟨fun _ _ _ hab hbc => le_trans hab hbc⟩

/-- The statement list both format_context loops build after the preamble:
for each exchange in order, a user message holding the prompt then an llm
message holding the response. -/
def formatMessages (hits : List ChatExchange) : List ChatMessage :=
  hits.flatMap fun h =>
    [{ role := "_user", content := h.prompt },
     { role := "_llm", content := h.response }]

/-- SessionManager._format_context from
redisvl/extensions/session_manager/session.py with as_text false: sorts the
hits by timestamp (python list.sort, a stable ascending sort, embedded as
insertion sort) and then emits the preamble followed by the user/llm
message pairs. -/
def SessionManager.format_context (preambleContent : String)
    (hits : List ChatExchange) : List ChatMessage :=
  { role := "_preamble", content := preambleContent } ::
    formatMessages (List.insertionSort tsLE hits)

/-- StandardSessionManager._format_context from
redisvl/extensions/session_manager/standard_session.py with as_text false:
emits the preamble followed by the user/llm message pairs in the order the
messages were given; no sorting occurs. -/
def StandardSessionManager.format_context (preambleContent : String)
    (messages : List ChatExchange) : List ChatMessage :=
  { role := "_preamble", content := preambleContent } ::
    formatMessages messages

/-- C1: for every id and every index schema, the derived storage key equals
prefix + separator + id when the key prefix is non-empty, and equals id
unchanged when the prefix is the empty string. -/
theorem key_for_concatenation (pre sep id : String) :
    (pre = "" → key_for pre sep id = id) ∧
    (pre ≠ "" → key_for pre sep id = pre ++ sep ++ id) := by
  constructor
  · intro h
    simp [key_for, h]
  · intro h
    simp [key_for, h]

/-- Witness for C1: the concatenation rule evaluated at the inputs the unit
tests use, with both hypotheses discharged. -/
theorem key_for_concatenation_witness :
    key_for "" ":" "foo" = "foo" ∧
    key_for "rvl" ":" "foo" = "rvl" ++ ":" ++ "foo" :=
  ⟨(key_for_concatenation "" ":" "foo").1 rfl,
   (key_for_concatenation "rvl" ":" "foo").2 (by decide)⟩

/-- C7: SemanticCache.check called with neither a prompt nor a vector
returns the validation error with an empty engine trace: no embedding,
search or expire command is issued. -/
theorem check_requires_prompt_or_vector (st : SemanticCacheState)
    (embedFn : String → List Rat) (searchFn : List Rat → List CacheDoc) :
    SemanticCache.check st embedFn searchFn none none =
      (.error "Either prompt or vector must be specified.", []) := rfl

/-- C6: SemanticCache.set_threshold stores a value inside the closed
interval from 0 to 1 so that the threshold property returns it, and for a
value outside that interval it raises the validation error with the stored
state unchanged. -/
theorem set_threshold_spec (st : SemanticCacheState) (t : Rat) :
    (0 ≤ t ∧ t ≤ 1 →
      SemanticCache.set_threshold st t = ({ st with threshold := t }, none)) ∧
    (¬ (0 ≤ t ∧ t ≤ 1) →
      SemanticCache.set_threshold st t =
        (st, some "Threshold must be between 0 and 1.")) := by
  constructor
  · intro h
    simp [SemanticCache.set_threshold, h]
  · intro h
    simp [SemanticCache.set_threshold, h]

/-- Witness for C6: an in-range update stores the value, an out-of-range
update errors and the state is the unchanged old one. -/
theorem set_threshold_spec_witness :
    (0 ≤ mkRat 3 4 ∧ mkRat 3 4 ≤ 1) ∧
    SemanticCache.set_threshold ⟨mkRat 1 2, none⟩ (mkRat 3 4) =
      (⟨mkRat 3 4, none⟩, none) ∧
    ¬ (0 ≤ (2 : Rat) ∧ (2 : Rat) ≤ 1) ∧
    SemanticCache.set_threshold ⟨mkRat 1 2, none⟩ 2 =
      (⟨mkRat 1 2, none⟩, some "Threshold must be between 0 and 1.") :=
  ⟨by decide, (set_threshold_spec ⟨mkRat 1 2, none⟩ (mkRat 3 4)).1 (by decide),
   by decide, (set_threshold_spec ⟨mkRat 1 2, none⟩ 2).2 (by decide)⟩

/-- C10: a FieldsModel with tag, text, numeric and vector all None reports
is_empty true whatever its geo collection holds, and changing only the geo
collection never changes is_empty. -/
theorem is_empty_ignores_geo :
    (∀ g : Option (List GeoFieldSchema),
      (FieldsModel.mk none none none g none).is_empty = true) ∧
    (∀ (f : FieldsModel) (g : Option (List GeoFieldSchema)),
      ({ f with geo := g } : FieldsModel).is_empty = f.is_empty) := by
  constructor
  · intro g
    rfl
  · intro f g
    cases f
    rfl

/-- Counterexample for C2: with the threshold at nine tenths, a returned
row at distance one tenth has similarity exactly nine tenths, the supposed
minimum allowed similarity, yet its response is not included: the source
compares with a strict greater-than. -/
theorem check_threshold_equality_excluded :
    similarity (mkRat 1 10) = mkRat 9 10 ∧
    (SemanticCache.check ⟨mkRat 9 10, none⟩ (fun _ => [])
        (fun _ => [⟨"key1", mkRat 1 10, "resp"⟩]) none (some [1])).1 =
      .ok [] := by
  have hsim : similarity (mkRat 1 10) = mkRat 9 10 := by
    norm_num [similarity, Rat.mkRat_eq_div]
  refine ⟨hsim, ?_⟩
  have hno : ¬ (similarity (mkRat 1 10) > mkRat 9 10) := by
    rw [hsim]
    exact lt_irrefl _
  simp [SemanticCache.check, pyTruthyVec, pyTruthyStr, hno]

/-- C2 amended: a returned row's response is included in the cache hits
exactly when its similarity, one minus its reported vector distance, is
strictly greater than the stored threshold; a row whose similarity equals
the threshold is excluded. -/
theorem check_hits_strict_threshold (st : SemanticCacheState)
    (embedFn : String → List Rat) (searchFn : List Rat → List CacheDoc)
    (v : List Rat) (hv : v ≠ []) :
    (SemanticCache.check st embedFn searchFn none (some v)).1 =
      .ok (((searchFn v).filter fun d =>
        similarity d.vector_distance > st.threshold).map
          fun d => d.response) := by
  have htv : pyTruthyVec (some v) = true := by
    simp [pyTruthyVec, hv]
  simp [SemanticCache.check, htv, pyTruthyStr]

/-- Witness for C2 amended: at threshold one half, a row at distance zero
has similarity one and is returned; the hypothesis that the query vector is
non-empty is discharged at the singleton vector. -/
theorem check_hits_strict_threshold_witness :
    (SemanticCache.check ⟨mkRat 1 2, none⟩ (fun _ => [])
        (fun _ => [⟨"k", 0, "r"⟩]) none (some [1])).1 =
      .ok ((([⟨"k", 0, "r"⟩] : List CacheDoc).filter fun d =>
        similarity d.vector_distance > mkRat 1 2).map fun d => d.response) :=
  check_hits_strict_threshold ⟨mkRat 1 2, none⟩ (fun _ => [])
    (fun _ => [⟨"k", 0, "r"⟩]) [1] (by decide)

/-- Counterexample for C8: the list-backed StandardSessionManager formats
two exchanges whose timestamps arrive out of order exactly in the order
given, so its output differs from the vector-backed SessionManager's
timestamp-sorted output on the same input. -/
theorem standard_format_context_no_sort :
    StandardSessionManager.format_context "pre"
        [⟨"p2", "r2", 2⟩, ⟨"p1", "r1", 1⟩] =
      [⟨"_preamble", "pre"⟩, ⟨"_user", "p2"⟩, ⟨"_llm", "r2"⟩,
       ⟨"_user", "p1"⟩, ⟨"_llm", "r1"⟩] ∧
    StandardSessionManager.format_context "pre"
        [⟨"p2", "r2", 2⟩, ⟨"p1", "r1", 1⟩] ≠
      SessionManager.format_context "pre"
        [⟨"p2", "r2", 2⟩, ⟨"p1", "r1", 1⟩] := by
  constructor
  · rfl
  · decide

/-- C8 amended: the vector-backed SessionManager formats a timestamp-sorted
permutation of the retrieved exchanges, while the list-backed
StandardSessionManager formats the retrieved exchanges in the order given,
without any client-side sort. -/
theorem format_context_sort_policy (p : String) (hits : List ChatExchange) :
    (∃ hits', List.Perm hits' hits ∧ List.Sorted tsLE hits' ∧
      SessionManager.format_context p hits =
        { role := "_preamble", content := p } :: formatMessages hits') ∧
    StandardSessionManager.format_context p hits =
      { role := "_preamble", content := p } :: formatMessages hits :=
  ⟨⟨List.insertionSort tsLE hits, List.perm_insertionSort tsLE hits,
    List.sorted_insertionSort tsLE hits, rfl⟩, rfl⟩

/-- Counterexample for C9: two stores with the same prompt but a metadata
dict carrying an id entry in the second call derive different storage keys,
because payload.update(metadata) runs before the key field is read: the
key is not a hash of the prompt alone. -/
theorem store_key_metadata_override :
    (SemanticCache.store (fun s => s) (fun _ => []) "llmcache" ":"
        (fun _ => none) "p" "r1" (some [1]) []).2 = "llmcache:p" ∧
    (SemanticCache.store (fun s => s) (fun _ => []) "llmcache" ":"
        (fun _ => none) "p" "r2" (some [1]) [("id", "other")]).2 =
      "llmcache:other" ∧
    ("llmcache:p" : String) ≠ "llmcache:other" := by
  refine ⟨rfl, rfl, ?_⟩
  decide

/-- C9 amended: metadata entries are merged into the payload last and can
override the reserved id, prompt, response and prompt_vector fields; when
neither call's metadata carries an id entry, two stores with the same
prompt derive the same storage key whatever the response, vector and
remaining metadata arguments are, and the second call replaces the entry
the first one wrote: at the shared key now sits the second payload, whose
response and prompt fields (its metadata overriding neither) hold the
second response and the prompt, with its metadata entries merged in. -/
theorem store_key_prompt_only (hashInput : String → String)
    (embedFn : String → List Rat) (pre sep : String)
    (db : String → Option (String → Option PyValue)) (prompt r1 r2 : String)
    (v1 v2 : Option (List Rat)) (m1 m2 : List (String × String))
    (h1 : m1.lookup "id" = none) (h2 : m2.lookup "id" = none)
    (h3 : m2.lookup "response" = none) (h4 : m2.lookup "prompt" = none) :
    (SemanticCache.store hashInput embedFn pre sep db prompt r1 v1 m1).2 =
      (SemanticCache.store hashInput embedFn pre sep
        (SemanticCache.store hashInput embedFn pre sep db prompt r1 v1 m1).1
        prompt r2 v2 m2).2 ∧
    ∃ pl,
      (SemanticCache.store hashInput embedFn pre sep
          (SemanticCache.store hashInput embedFn pre sep db prompt r1 v1 m1).1
          prompt r2 v2 m2).1
        ((SemanticCache.store hashInput embedFn pre sep db prompt r1 v1 m1).2)
          = some pl ∧
      pl "response" = some (.str r2) ∧ pl "prompt" = some (.str prompt) ∧
      ∀ k v, m2.lookup k = some v → pl k = some (.str v) := by
  have key_eq : ∀ (vec : List Rat) (resp : String)
      (m : List (String × String)), m.lookup "id" = none →
      payloadStr (dictUpdate (payloadDict (hashInput prompt) vec prompt
        resp) m) "id" = hashInput prompt := by
    intro vec resp m hm
    simp [payloadStr, dictUpdate, payloadDict, hm]
  constructor
  · simp only [SemanticCache.store]
    rw [key_eq _ _ _ h1, key_eq _ _ _ h2]
  · refine ⟨dictUpdate (payloadDict (hashInput prompt)
      (if !pyTruthyVec v2 then embedFn prompt else v2.getD []) prompt r2)
      m2, ?_, ?_, ?_, ?_⟩
    · simp only [SemanticCache.store]
      rw [key_eq _ _ _ h1, key_eq _ _ _ h2]
      simp
    · simp [dictUpdate, payloadDict, h3]
    · simp [dictUpdate, payloadDict, h4]
    · intro k v hv
      simp [dictUpdate, hv]

/-- Witness for C9 amended: the amended theorem applied with identity
hashing, empty first metadata and a second metadata dict holding only a
source entry, discharging all four lookup hypotheses. -/
theorem store_key_prompt_only_witness :
    (SemanticCache.store (fun s => s) (fun _ => []) "llmcache" ":"
        (fun _ => none) "p" "r1" (some [1]) []).2 =
      (SemanticCache.store (fun s => s) (fun _ => []) "llmcache" ":"
        (SemanticCache.store (fun s => s) (fun _ => []) "llmcache" ":"
          (fun _ => none) "p" "r1" (some [1]) []).1
        "p" "r2" (some [1]) [("source", "test")]).2 ∧
    ∃ pl,
      (SemanticCache.store (fun s => s) (fun _ => []) "llmcache" ":"
          (SemanticCache.store (fun s => s) (fun _ => []) "llmcache" ":"
            (fun _ => none) "p" "r1" (some [1]) []).1
          "p" "r2" (some [1]) [("source", "test")]).1
        ((SemanticCache.store (fun s => s) (fun _ => []) "llmcache" ":"
          (fun _ => none) "p" "r1" (some [1]) []).2) = some pl ∧
      pl "response" = some (.str "r2") ∧ pl "prompt" = some (.str "p") ∧
      ∀ k v, ([("source", "test")] : List (String × String)).lookup k =
        some v → pl k = some (.str v) :=
  store_key_prompt_only (fun s => s) (fun _ => []) "llmcache" ":"
    (fun _ => none) "p" "r1" "r2" (some [1]) (some [1]) []
    [("source", "test")] rfl rfl rfl rfl

/-- Counterexample for C3: the string bogus case-normalizes to BOGUS, which
is not in REDIS_DISTANCE_METRICS, yet the vector field constructs
successfully, so the distance_metric enumeration is not enforced. -/
theorem vector_field_distance_metric_not_rejected :
    ("BOGUS" ∉ REDIS_DISTANCE_METRICS) ∧
    mkFlatVectorField "v" 4 "flat" "float32" "bogus" none none =
      .ok ⟨"v", 4, "FLAT", "FLOAT32", "BOGUS", none, none⟩ := by
  constructor
  · decide
  · rfl

/-- C3 amended: construction case-normalizes all three of algorithm,
datatype and distance_metric by uppercasing, and rejects an algorithm or a
datatype whose normalized form is not in its recognized enumeration, but a
distance_metric outside REDIS_DISTANCE_METRICS is accepted: success depends
only on the normalized algorithm and datatype. -/
theorem vector_field_enum_validation (n : String) (d : Int)
    (alg dt dm : String) (ic bs : Option Int) (m efc efr : Int)
    (eps : Rat) :
    ((∃ f, mkFlatVectorField n d alg dt dm ic bs = .ok f) ↔
      (pyUpper alg = "FLAT" ∧ pyUpper dt ∈ REDIS_VECTOR_DTYPE_MAP)) ∧
    (∀ f, mkFlatVectorField n d alg dt dm ic bs = .ok f →
      f.algorithm = pyUpper alg ∧ f.datatype = pyUpper dt ∧
        f.distance_metric = pyUpper dm) ∧
    ((∃ h, mkHNSWVectorField n d alg dt dm ic m efc efr eps = .ok h) ↔
      (pyUpper alg = "HNSW" ∧ pyUpper dt ∈ REDIS_VECTOR_DTYPE_MAP)) ∧
    (∀ h, mkHNSWVectorField n d alg dt dm ic m efc efr eps = .ok h →
      h.algorithm = pyUpper alg ∧ h.datatype = pyUpper dt ∧
        h.distance_metric = pyUpper dm) := by
  refine ⟨?_, ?_, ?_, ?_⟩
  · constructor
    · rintro ⟨f, hf⟩
      simp only [mkFlatVectorField] at hf
      split at hf
      · simp at hf
      · split at hf
        · simp at hf
        · rename_i h1 h2
          exact ⟨not_not.mp h1, not_not.mp h2⟩
    · rintro ⟨h1, h2⟩
      refine ⟨⟨n, d, pyUpper alg, pyUpper dt, pyUpper dm, ic, bs⟩, ?_⟩
      simp [mkFlatVectorField, h1, h2]
  · intro f hf
    simp only [mkFlatVectorField] at hf
    split at hf
    · simp at hf
    · split at hf
      · simp at hf
      · rw [Except.ok.injEq] at hf
        subst hf
        exact ⟨rfl, rfl, rfl⟩
  · constructor
    · rintro ⟨h, hf⟩
      simp only [mkHNSWVectorField] at hf
      split at hf
      · simp at hf
      · split at hf
        · simp at hf
        · rename_i h1 h2
          exact ⟨not_not.mp h1, not_not.mp h2⟩
    · rintro ⟨h1, h2⟩
      refine ⟨⟨n, d, pyUpper alg, pyUpper dt, pyUpper dm, ic, m, efc, efr,
        eps⟩, ?_⟩
      simp [mkHNSWVectorField, h1, h2]
  · intro h hf
    simp only [mkHNSWVectorField] at hf
    split at hf
    · simp at hf
    · split at hf
      · simp at hf
      · rw [Except.ok.injEq] at hf
        subst hf
        exact ⟨rfl, rfl, rfl⟩

/-- Witness for C3 amended: a lowercase flat and float32 construct
successfully whatever the distance_metric, and the constructed field holds
the uppercased distance_metric; the ok hypothesis of the second conjunct is
discharged at the concrete constructed field. -/
theorem vector_field_enum_validation_witness :
    (∃ f, mkFlatVectorField "v" 4 "flat" "float32" "bogus" none none =
      .ok f) ∧
    ({ name := "v", dims := 4, algorithm := "FLAT", datatype := "FLOAT32",
       distance_metric := "BOGUS", initial_cap := none,
       block_size := none } : FlatVectorField).distance_metric =
      pyUpper "bogus" :=
  ⟨(vector_field_enum_validation "v" 4 "flat" "float32" "bogus" none none
      16 200 10 1).1.mpr (by decide),
   ((vector_field_enum_validation "v" 4 "flat" "float32" "bogus" none none
      16 200 10 1).2.1
      ⟨"v", 4, "FLAT", "FLOAT32", "BOGUS", none, none⟩ rfl).2.2⟩

/-- Counterexample for C4: a vector field with dims zero, and one with dims
negative three, both construct successfully: no positivity check exists. -/
theorem vector_field_nonpositive_dims_accepted :
    mkFlatVectorField "v" 0 "FLAT" "FLOAT32" "COSINE" none none =
      .ok ⟨"v", 0, "FLAT", "FLOAT32", "COSINE", none, none⟩ ∧
    mkFlatVectorField "v" (-3) "FLAT" "FLOAT32" "COSINE" none none =
      .ok ⟨"v", -3, "FLAT", "FLOAT32", "COSINE", none, none⟩ := by
  constructor
  · rfl
  · rfl

/-- C4 amended: construction performs no check on dims: with a valid
algorithm and datatype every integer dims value, zero and negative values
included, yields a successfully constructed vector field carrying exactly
that dims value. -/
theorem vector_field_dims_unchecked (n : String) (d : Int) (dm : String)
    (ic bs : Option Int) :
    ∃ f, mkFlatVectorField n d "FLAT" "FLOAT32" dm ic bs = .ok f ∧
      f.dims = d := by
  refine ⟨⟨n, d, "FLAT", "FLOAT32", pyUpper dm, ic, bs⟩, ?_, rfl⟩
  have h1 : pyUpper "FLAT" = "FLAT" := rfl
  have h2 : pyUpper "FLOAT32" ∈ REDIS_VECTOR_DTYPE_MAP := by decide
  have h3 : pyUpper "FLOAT32" = "FLOAT32" := rfl
  have h4 : ("FLOAT32" : String) ∈ REDIS_VECTOR_DTYPE_MAP := by decide
  simp [mkFlatVectorField, h1, h2, h3, h4]

/-- Counterexample for C5: constructed without an explicit key prefix, two
IndexModels with different names both default the prefix to the same
constant rvl, which is not derived from either index name. -/
theorem index_model_default_key_prefix_constant :
    mkIndexModel "my_index" .omitted .omitted none =
      .ok ⟨"my_index", "rvl", ":", "hash"⟩ ∧
    mkIndexModel "another_index" .omitted .omitted none =
      .ok ⟨"another_index", "rvl", ":", "hash"⟩ ∧
    ("rvl" : String) ≠ "my_index" := by
  refine ⟨rfl, rfl, ?_⟩
  decide

/-- C5 amended: for a non-empty name, an omitted key prefix defaults to the
constant string rvl regardless of the name, an explicitly None prefix
becomes the empty string, and an omitted or None key separator defaults to
a colon. -/
theorem index_model_defaults (name : String) (h : name ≠ "") :
    mkIndexModel name .omitted .omitted none =
      .ok ⟨name, "rvl", ":", "hash"⟩ ∧
    mkIndexModel name .pyNone .pyNone none =
      .ok ⟨name, "", ":", "hash"⟩ := by
  constructor
  · simp [mkIndexModel, h]
  · simp [mkIndexModel, h]

/-- Witness for C5 amended: the defaults evaluated at the name the unit
tests use, with the non-empty-name hypothesis discharged. -/
theorem index_model_defaults_witness :
    mkIndexModel "my_index" .omitted .omitted none =
      .ok ⟨"my_index", "rvl", ":", "hash"⟩ ∧
    mkIndexModel "my_index" .pyNone .pyNone none =
      .ok ⟨"my_index", "", ":", "hash"⟩ :=
  ⟨(index_model_defaults "my_index" (by decide)).1,
   (index_model_defaults "my_index" (by decide)).2⟩
